import Mathlib

/-
Verification development for the go-binder repository (package binder).

The engine under study is the reflection-driven recursive binding engine in
the package source (the file modelled here is the one holding `binder.bind`,
`binder._bindList`, `binder.bindMap`, `binder.bindStruct`, `binder.bindField`,
`binder.bindPointer`, `binder.bindInterface` and the `Binder`/`binder`
structures).  The shallow embedding below translates that code into pure Lean
functions over an explicit model of Go runtime values:

* `GoType` models the destination's reflect.Type (the structural fragment the
  claims need: bool, the integer family collapsed to one mathematical integer
  kind, string, named types carrying a method-set identifier, pointers,
  interfaces identified by an id, structs, arrays, slices and maps).
  time.Time / time.Duration, floats and the unsigned family are outside the
  modelled fragment; they only add further scalar-coercion leaves and play no
  role in any claim.
* `DVal` models the current contents of a destination location.
* `GoVal` models the dynamic source value (`any`): nil, bool, int, string,
  a sequence (`[]any` / `[]string` / other slices and arrays are merged into
  one sequence form) and a string-keyed map (`map[string]any` /
  `map[string]string` merged likewise).  The model's sources carry no pointer
  values, so the one-level pointer indirection special case for empty
  interface slots never fires.
* Go's in-place mutation is modelled by state passing: every binder returns
  the new destination value together with the error, so partial writes on an
  error path are observable.  Go reflect panics (index out of range,
  reflect.Value.Set on an unaddressable or invalid value) are modelled as
  distinguished error outcomes.
* Addressability is modelled by the `canSet` flag threaded exactly where the
  source threads reflect.Values: a settable value has `canSet = true`; the
  element of an interface is never addressable; the element of a non-nil
  pointer is addressable.
* The external collaborators are modelled abstractly: the go-cast scalar
  coercion service as small total functions, the go-structs field/tag reader
  as a pre-parsed `FieldMeta`, and user types implementing the Unmarshaler /
  Setter capabilities as an environment `Env` mapping method-set identifiers
  to behaviours.
* Hook invocations are logged in the result so that claims about when the
  hook runs are stateable.

Recursion is fuel-indexed (Go's recursion is bounded by the finite
destination type and value; the fuel makes that bound explicit and keeps
every definition executable by kernel reduction).
-/

namespace GoBinder

/-- Pre-parsed description of one struct field, the data the engine reads off
`reflect.StructField` and the go-structs `field.GetTag` collaborator: the Go
field name, the tag's name and argument components (empty when absent), the
Anonymous flag, and whether the field is exported (CanSet for a field of an
addressable struct). -/
structure FieldMeta where
  fname : String
  tagName : String
  tagArg : String
  anon : Bool
  exported : Bool
deriving Repr

/-- The destination type model (the structural fragment of reflect.Type the
claims touch).  `tNamed id base` is a defined type with method-set identifier
`id` over underlying type `base`; `tIface id` is an interface type identified
by `id`, with `0` reserved for the empty interface `any`. -/
inductive GoType where
  | tBool
  | tInt
  | tStr
  | tNamed (id : Nat) (base : GoType)
  | tPtr (t : GoType)
  | tIface (id : Nat)
  | tStruct (fs : List (FieldMeta × GoType))
  | tArr (t : GoType)
  | tSlice (t : GoType)
  | tMap (k v : GoType)
deriving Repr

/-- The dynamic source value model (`any`).  `vnull` is the untyped nil
interface (`src == nil`). -/
inductive GoVal where
  | vnull
  | vbool (b : Bool)
  | vint (n : Int)
  | vstr (s : String)
  | vlist (es : List GoVal)
  | vmap (kvs : List (String × GoVal))
deriving Repr

/-- The destination value model.  A `dIface` holding `some (t, v)` is an
interface slot whose current payload is the value `v` of dynamic type `t`;
`dSlice none` / `dMap none` are the nil slice / nil map. -/
inductive DVal where
  | dBool (b : Bool)
  | dInt (n : Int)
  | dStr (s : String)
  | dPtr (p : Option DVal)
  | dIface (h : Option (GoType × DVal))
  | dStruct (fs : List DVal)
  | dArr (es : List DVal)
  | dSlice (es : Option (List DVal))
  | dMap (kvs : Option (List (DVal × DVal)))
deriving Repr

/-- reflect.Kind, restricted to the modelled fragment.  `kInt` stands for the
whole integer family the source dispatches through `bindInt`/`bindInt64`/
`bindUint`. -/
inductive Kind where
  | kBool
  | kInt
  | kStr
  | kPtr
  | kIface
  | kStruct
  | kArr
  | kSlice
  | kMap
deriving Repr, DecidableEq

/-- Kind of a type (reflect.Type.Kind); a named type has its underlying
type's kind. -/
def GoType.kind : GoType → Kind
  | .tBool => .kBool
  | .tInt => .kInt
  | .tStr => .kStr
  | .tNamed _ b => b.kind
  | .tPtr _ => .kPtr
  | .tIface _ => .kIface
  | .tStruct _ => .kStruct
  | .tArr _ => .kArr
  | .tSlice _ => .kSlice
  | .tMap _ _ => .kMap

/-- Pointee type of a pointer type (reflect.Type.Elem on a pointer). -/
def ptrElem : GoType → GoType
  | .tPtr u => u
  | .tNamed _ b => ptrElem b
  | _ => .tIface 0

/-- Element type of an array/slice type (reflect.Type.Elem). -/
def elemT : GoType → GoType
  | .tArr e => e
  | .tSlice e => e
  | .tNamed _ b => elemT b
  | _ => .tIface 0

/-- Key type of a map type (reflect.Type.Key). -/
def keyT : GoType → GoType
  | .tMap k _ => k
  | .tNamed _ b => keyT b
  | _ => .tIface 0

/-- Value type of a map type (reflect.Type.Elem on a map). -/
def valT : GoType → GoType
  | .tMap _ v => v
  | .tNamed _ b => valT b
  | _ => .tIface 0

/-- Declared fields of a struct type (the field.GetAllFields collaborator). -/
def structFields : GoType → List (FieldMeta × GoType)
  | .tStruct fs => fs
  | .tNamed _ b => structFields b
  | _ => []

/-- Interface identifier of an interface type. -/
def ifaceIdOf : GoType → Nat
  | .tIface i => i
  | .tNamed _ b => ifaceIdOf b
  | _ => 0

/-- Method-set identifier of a named type, if any. -/
def namedIdOf : GoType → Option Nat
  | .tNamed i _ => some i
  | _ => none

/-- The named type whose pointer method set the escape-hatch type switch at
source lines 225-234 inspects: for a pointer-kind destination `ptrvalue` is
the value itself (so we look through the pointer at the named pointee, or at
a named pointer type directly); otherwise `ptrvalue = value.Addr()`, a
pointer to the destination's own (named) type. -/
def escTarget : GoType → Option Nat
  | .tNamed i _ => some i
  | .tPtr u => namedIdOf u
  | _ => none

mutual
/-- Zero value of a type (reflect.New(...).Elem() / reflect.Zero). -/
def zero : GoType → DVal
  | .tBool => .dBool false
  | .tInt => .dInt 0
  | .tStr => .dStr ""
  | .tNamed _ b => zero b
  | .tPtr _ => .dPtr none
  | .tIface _ => .dIface none
  | .tStruct fs => .dStruct (zeroFields fs)
  | .tArr _ => .dArr []
  | .tSlice _ => .dSlice none
  | .tMap _ _ => .dMap none

/-- Zero values of a field list, pointwise. -/
def zeroFields : List (FieldMeta × GoType) → List DVal
  | [] => []
  | (_, t) :: fs => zero t :: zeroFields fs
end

/-- Dynamic type of a source value (reflect.TypeOf(src)).  Sequences are
`[]any`, maps are `map[string]any` in the merged model. -/
def srcType : GoVal → GoType
  | .vnull => .tIface 0
  | .vbool _ => .tBool
  | .vint _ => .tInt
  | .vstr _ => .tStr
  | .vlist _ => .tSlice (.tIface 0)
  | .vmap _ => .tMap .tStr (.tIface 0)

/-- Error outcomes of the engine.  Each constructor names one error the
source can produce (the Go error strings are in the comments); the two
`panic` constructors model Go runtime/reflect panics; `user` models errors
produced by caller-supplied hooks or capability implementations; `outOfFuel`
and `illTyped` are model-internal (fuel exhaustion of the explicit recursion
bound, and a destination value not matching its stated type — unreachable
for well-typed inputs). -/
inductive BErr where
  | notSettablePointee -- "%T must be a pointer to a value that can be set"
  | notCanSetOrPtr     -- "Binder.Bind: %T must be canset or a pointer"
  | castFail           -- a coercion failure reported by the go-cast collaborator
  | listToNonList      -- "cannot bind a slice type to a non-array/slice type"
  | mapToNonMap        -- "cannot bind a map type to a non-map type"
  | structToNonMap     -- "unsupport to bind a struct to %T"
  | cantAssign         -- "cannot assign %s to %s"
  | panicIndex         -- Go runtime panic: index out of range
  | panicSet           -- reflect panic: Set with an unaddressable or invalid value
  | user (n : Nat)
  | illTyped
  | outOfFuel
deriving Repr, DecidableEq

/-- Behaviour of user types and interfaces, the open part of the world the
engine talks to: which named method sets implement Unmarshaler (`hasU`) and
Setter (`hasS`), what those methods do (receiving the current receiver value
and returning the updated one — a pointer-receiver implementation faithful
to Go mutates only through the receiver), and which concrete types implement
which interface (`impl`, consulted for assignability to a non-empty
interface type). -/
structure Env where
  hasU : Nat → Bool
  hasS : Nat → Bool
  unm : Nat → DVal → GoVal → DVal × Option BErr
  set : Nat → DVal → GoVal → DVal × Option BErr
  impl : Nat → GoType → Bool

/-- Assignability to an interface id: the empty interface `any` (id 0)
accepts every type, other interfaces consult the environment. -/
def implOf (env : Env) (id : Nat) (t : GoType) : Bool :=
  if id = 0 then true else env.impl id t

/-- reflect.TypeOf(src).AssignableTo(dstType), restricted to the modelled
source values: a predeclared-typed scalar is assignable exactly to its own
predeclared type (never to a distinct named type), a sequence source
(`[]any` in the merged model) to `[]any`, a map source to `map[string]any`,
and anything to an interface type it implements. -/
def assignable (env : Env) (s : GoVal) : GoType → Bool
  | .tIface id => implOf env id (srcType s)
  | .tNamed _ b =>
    match b.kind with
    | .kIface => assignable env s b
    | _ => false
  | .tBool => match s with | .vbool _ => true | _ => false
  | .tInt => match s with | .vint _ => true | _ => false
  | .tStr => match s with | .vstr _ => true | _ => false
  | .tSlice (.tIface 0) => match s with | .vlist _ => true | _ => false
  | .tMap .tStr (.tIface 0) => match s with | .vmap _ => true | _ => false
  | _ => false

mutual
/-- Conversion of a source value to the destination value it denotes at its
own dynamic type (used by the direct-assignment fast path, source line 237:
`value.Set(reflect.ValueOf(src))`). -/
def toDyn : GoVal → DVal
  | .vnull => .dIface none
  | .vbool b => .dBool b
  | .vint n => .dInt n
  | .vstr s => .dStr s
  | .vlist es => .dSlice (some (toDynL es))
  | .vmap kvs => .dMap (some (toDynM kvs))

/-- Pointwise `toDyn` of sequence elements, each boxed in `any`. -/
def toDynL : List GoVal → List DVal
  | [] => []
  | g :: gs => .dIface (some (srcType g, toDyn g)) :: toDynL gs

/-- Pointwise `toDyn` of map entries, values boxed in `any`. -/
def toDynM : List (String × GoVal) → List (DVal × DVal)
  | [] => []
  | (k, v) :: kvs => (.dStr k, .dIface (some (srcType v, toDyn v))) :: toDynM kvs
end

/-- The destination value written by the direct-assignment fast path when
`assignable` holds: an interface slot stores the source at its dynamic type,
any other assignable destination receives the source value itself. -/
def assignConv (s : GoVal) : GoType → DVal
  | .tIface _ => .dIface (some (srcType s, toDyn s))
  | .tNamed _ b => assignConv s b
  | _ => toDyn s

/-- Model of the external go-cast collaborator: cast.ToBool. -/
def castToBool : GoVal → Option Bool
  | .vbool b => some b
  | .vint n => some (n != 0)
  | .vstr s =>
    if s = "true" || s = "1" then some true
    else if s = "false" || s = "0" then some false
    else none
  | _ => none

/-- Model of the external go-cast collaborator: cast.ToInt64 (which also
stands for ToUint64 in the merged integer family). -/
def castToInt64 : GoVal → Option Int
  | .vint n => some n
  | .vbool b => some (if b then 1 else 0)
  | .vstr s => s.toInt?
  | _ => none

/-- Model of the external go-cast collaborator: cast.ToString. -/
def castToString : GoVal → Option String
  | .vstr s => some s
  | .vint n => some (toString n)
  | .vbool b => some (if b then "true" else "false")
  | _ => none

/-- binder.bindBool (source lines 279-285): coerce and set on success,
leave the destination on failure. -/
def bindBool (dst : DVal) (src : GoVal) : DVal × Option BErr :=
  match castToBool src with
  | some v => (.dBool v, none)
  | none => (dst, some .castFail)

/-- binder.bindInt (source lines 287-293), standing for the whole integer
family dispatch (bindInt, bindInt64 without the time.Duration carve-out,
bindUint); time.Duration is outside the modelled fragment. -/
def bindInt (dst : DVal) (src : GoVal) : DVal × Option BErr :=
  match castToInt64 src with
  | some v => (.dInt v, none)
  | none => (dst, some .castFail)

/-- binder.bindString (source lines 323-329). -/
def bindString (dst : DVal) (src : GoVal) : DVal × Option BErr :=
  match castToString src with
  | some v => (.dStr v, none)
  | none => (dst, some .castFail)

/-- The hook contract (source line 58): receives the destination
reflect.Value (modelled as its type and current contents) and the current
source, returns the replacement source (`none` = the Go nil newsrc, meaning
the node is fully handled) and an optional error. -/
def HookFn := GoType → DVal → GoVal → Option GoVal × Option BErr

/-- One logged hook invocation: the arguments the hook received. -/
def HookEv := GoType × DVal × GoVal

/-- Result of one bind: the (possibly partially) updated destination value,
the error if any, and the hook invocations performed, in order. -/
structure BR where
  val : DVal
  err : Option BErr
  evs : List HookEv

/-- The binder parameters the recursive engine actually reads, plus the
external collaborators: the environment of user types, the
ConvertSliceToSingle policy, the resolved field-name getter and the optional
hook.  (The engine never reads ConvertSingleToSlice; see the wrapper
`binder.toCtx`.) -/
structure Ctx where
  env : Env
  cs2s : Bool
  gfn : FieldMeta → String × String
  hook : Option HookFn

/-- The writability guard of binder.bind (source lines 197-206): a settable
value proceeds; a non-settable value proceeds only when it is a pointer
whose element is addressable (a non-nil pointer); the element of an
interface is never addressable, and every other non-settable value is
skipped. -/
def canRoute (canSet : Bool) (k : Kind) (dst : DVal) : Bool :=
  canSet ||
    (match k, dst with
     | .kPtr, .dPtr (some _) => true
     | _, _ => false)

/-- The ConvertSliceToSingle step of binder.bind (source lines 215-223):
with the policy on and a non-array/slice destination, a sequence source is
replaced by its first element, an empty sequence means return with no write
(`none`); every other source passes through. -/
def collapseSrc (enabled : Bool) (k : Kind) (src : GoVal) : Option GoVal :=
  if enabled = true ∧ k ≠ .kArr ∧ k ≠ .kSlice then
    match src with
    | .vlist [] => none
    | .vlist (x :: _) => some x
    | s => some s
  else some src

/-- The escape-hatch type switch of binder.bind (source lines 225-234): on
the address of the destination (the value itself for a pointer kind), the
Unmarshaler case is checked before the Setter case; `none` means neither
capability is present and built-in dispatch continues. -/
def escapeStep (env : Env) (t : GoType) (dst : DVal) (src : GoVal) :
    Option (DVal × Option BErr) :=
  match escTarget t with
  | some id =>
    if env.hasU id then some (env.unm id dst src)
    else if env.hasS id then some (env.set id dst src)
    else none
  | none => none


mutual
/-- binder.bind (source lines 192-277), the Binding Engine dispatcher.  In
order: the nil-source check (193-195), the writability guard (197-206,
`canRoute`), the hook (208-213, every invocation logged), and the rest of
the node (`bindAfterHook`). -/
def bind (c : Ctx) : Nat → Bool → GoType → DVal → GoVal → BR
  | 0, _, _, dst, _ => ⟨dst, some .outOfFuel, []⟩
  | n + 1, canSet, t, dst, src =>
    match src with
    | .vnull => ⟨dst, none, []⟩
    | src =>
      if canRoute canSet t.kind dst then
        match c.hook with
        | none => bindAfterHook c n canSet t dst src
        | some h =>
          match h t dst src with
          | (_, some e) => ⟨dst, some e, [(t, dst, src)]⟩
          | (none, none) => ⟨dst, none, [(t, dst, src)]⟩
          | (some s, none) =>
            let r := bindAfterHook c n canSet t dst s
            ⟨r.val, r.err, (t, dst, src) :: r.evs⟩
      else ⟨dst, none, []⟩

/-- binder.bind after the hook (source lines 215-277): the
ConvertSliceToSingle collapse (215-223, `collapseSrc`), the escape-hatch
type switch (225-234, `escapeStep`), the direct-assignment fast path
(236-239), and the dispatch on the destination kind (241-276). -/
def bindAfterHook (c : Ctx) : Nat → Bool → GoType → DVal → GoVal → BR
  | 0, _, _, dst, _ => ⟨dst, some .outOfFuel, []⟩
  | n + 1, canSet, t, dst, src0 =>
    match collapseSrc c.cs2s t.kind src0 with
    | none => ⟨dst, none, []⟩
    | some src =>
      match escapeStep c.env t dst src with
      | some (d, e) => ⟨d, e, []⟩
      | none =>
        if assignable c.env src t then
          if canSet then ⟨assignConv src t, none, []⟩
          else ⟨dst, some .panicSet, []⟩
        else
          match t.kind with
          | .kBool => let r := bindBool dst src; ⟨r.1, r.2, []⟩
          | .kInt => let r := bindInt dst src; ⟨r.1, r.2, []⟩
          | .kStr => let r := bindString dst src; ⟨r.1, r.2, []⟩
          | .kPtr =>
            match dst with
            | .dPtr p => bindPointer c n (ptrElem t) p src
            | _ => ⟨dst, some .illTyped, []⟩
          | .kIface =>
            match dst with
            | .dIface h => bindInterface c n t h src
            | _ => ⟨dst, some .illTyped, []⟩
          | .kStruct => bindStruct c n t dst src
          | .kArr => bindArray c n (elemT t) dst src
          | .kSlice => bindSlice c n (elemT t) dst src
          | .kMap => bindMap c n (keyT t) (valT t) dst src

/-- binder.bindPointer (source lines 331-337): a nil pointer is first set to
a freshly allocated zero pointee (the only allocation of the node), then the
engine recurses into the pointee — addressable, hence settable — with the
same source; the resulting pointer is non-nil whether or not the recursion
succeeds. -/
def bindPointer (c : Ctx) : Nat → GoType → Option DVal → GoVal → BR
  | 0, _, p, _ => ⟨.dPtr p, some .outOfFuel, []⟩
  | n + 1, u, p, src =>
    let r := bind c n true u (p.getD (zero u)) src
    ⟨.dPtr (some r.val), r.err, r.evs⟩

/-- binder.bindInterface (source lines 339-397).  Held-payload branch
(340-374): the interface element is never addressable; `copied` becomes true
only for a held pointer whose own element is not addressable (a nil
pointer); a fresh copy is then allocated, but line 367 decodes into `elem` —
the original, not the copy — and line 372 then calls `dstValue.Set` on
`elem.Elem()`, which for the nil held pointer is the invalid zero Value and
panics.  A held non-nil pointer is bound through (pointee mutations are
visible via sharing, realised here by keeping the recursion result as the
held payload); a held non-pointer is bound with no addressability, a no-op.
Empty-slot branch (376-396): the one-level pointer indirection (382-384)
never fires for the modelled sources; a directly assignable source is stored
verbatim, anything else is the "cannot assign" error. -/
def bindInterface (c : Ctx) : Nat → GoType → Option (GoType × DVal) → GoVal → BR
  | 0, _, h, _ => ⟨.dIface h, some .outOfFuel, []⟩
  | n + 1, _, some (et, ev), src =>
    let copied : Bool :=
      match et.kind, ev with
      | .kPtr, .dPtr none => true
      | _, _ => false
    let r := bind c n false et ev src
    if r.err.isSome || !copied then ⟨.dIface (some (et, r.val)), r.err, r.evs⟩
    else ⟨.dIface (some (et, r.val)), some .panicSet, r.evs⟩
  | _ + 1, t, none, src =>
    let st := srcType src
    if implOf c.env (ifaceIdOf t) st then ⟨.dIface (some (st, toDyn src)), none, []⟩
    else ⟨.dIface none, some .cantAssign, []⟩

/-- binder.bindStruct (source lines 523-540) without the time.Time
carve-out (time is outside the modelled fragment): enumerate the declared
fields and bind each in order, stopping at the first error (earlier field
writes persist, in place). -/
def bindStruct (c : Ctx) : Nat → GoType → DVal → GoVal → BR
  | 0, _, dst, _ => ⟨dst, some .outOfFuel, []⟩
  | n + 1, t, dst, src =>
    match dst with
    | .dStruct vs =>
      let r := bindFields c n (structFields t) vs src
      ⟨.dStruct r.1, r.2.1, r.2.2⟩
    | _ => ⟨dst, some .illTyped, []⟩

/-- The field loop of binder.bindStruct (source lines 532-538), positional
over the declared field list. -/
def bindFields (c : Ctx) :
    Nat → List (FieldMeta × GoType) → List DVal → GoVal →
    List DVal × Option BErr × List HookEv
  | 0, _, vs, _ => (vs, some .outOfFuel, [])
  | _ + 1, [], vs, _ => (vs, none, [])
  | _ + 1, _ :: _, [], _ => ([], some .illTyped, [])
  | n + 1, (f, ft) :: fs, v :: vs, src =>
    let r := bindField c n f ft v src
    match r.err with
    | some e => (r.val :: vs, some e, r.evs)
    | none =>
      let rest := bindFields c n fs vs src
      (r.val :: rest.1, rest.2.1, r.evs ++ rest.2.2)

/-- binder.bindField (source lines 542-569): skip a non-settable
(unexported) field; resolve (name, arg) through the field-name getter and
skip an ignored (empty-named) field; a struct-kind field that is anonymous
or carries the "squash" argument recurses the struct binder with the parent
record's source value; otherwise the source must be a map (error if not, a
no-op if empty), and the field binds against the entry found under its
name, if any. -/
def bindField (c : Ctx) : Nat → FieldMeta → GoType → DVal → GoVal → BR
  | 0, _, _, v, _ => ⟨v, some .outOfFuel, []⟩
  | n + 1, f, ft, v, src =>
    if f.exported = true then
      match c.gfn f with
      | (name, arg) =>
        if name = "" then ⟨v, none, []⟩
        else
          if ft.kind = .kStruct ∧ (f.anon = true ∨ arg = "squash") then
            bindStruct c n ft v src
          else
            match src with
            | .vmap [] => ⟨v, none, []⟩
            | .vmap kvs =>
              match List.lookup name kvs with
              | some sv => bind c n true ft v sv
              | none => ⟨v, none, []⟩
            | _ => ⟨v, some .structToNonMap, []⟩
    else ⟨v, none, []⟩

/-- binder.bindArray (source lines 399-401). -/
def bindArray (c : Ctx) : Nat → GoType → DVal → GoVal → BR
  | 0, _, dst, _ => ⟨dst, some .outOfFuel, []⟩
  | n + 1, et, dst, src => _bindList c n true et dst src

/-- binder.bindSlice (source lines 403-405). -/
def bindSlice (c : Ctx) : Nat → GoType → DVal → GoVal → BR
  | 0, _, dst, _ => ⟨dst, some .outOfFuel, []⟩
  | n + 1, et, dst, src => _bindList c n false et dst src

/-- binder._bindList (source lines 407-459).  A non-sequence source is the
"cannot bind a slice type" error.  For an array destination (437-444): a
zero-length array is a no-op; otherwise the loop bound `_len` starts as the
source length and line 442-443 raises it to the destination length when the
source is shorter (`if _len < dstlen { _len = dstlen }`), and the loop then
binds in place into the existing storage.  For a slice destination
(445-447): a fresh zero-filled slice of the source length is bound
element-wise and written to the destination only on success (455-457). -/
def _bindList (c : Ctx) : Nat → Bool → GoType → DVal → GoVal → BR
  | 0, _, _, dst, _ => ⟨dst, some .outOfFuel, []⟩
  | n + 1, isArray, et, dst, src =>
    match src with
    | .vlist vs =>
      if isArray then
        match dst with
        | .dArr ds =>
          if ds.length = 0 then ⟨dst, none, []⟩
          else
            let len := if vs.length < ds.length then ds.length else vs.length
            let r := listLoop c n et len ds vs
            ⟨.dArr r.1, r.2.1, r.2.2⟩
        | _ => ⟨dst, some .illTyped, []⟩
      else
        let len := vs.length
        let r := listLoop c n et len (List.replicate len (zero et)) vs
        match r.2.1 with
        | some e => ⟨dst, some e, r.2.2⟩
        | none => ⟨.dSlice (some r.1), none, r.2.2⟩
    | _ => ⟨dst, some .listToNonList, []⟩

/-- The element loop of binder._bindList (source lines 449-453), running the
loop counter down from `_len`: exhausting the destination elements models
the `elems.Index(i)` panic, exhausting the source elements models the
`vs[i]` panic (both are Go index-out-of-range panics); element writes made
before an error persist. -/
def listLoop (c : Ctx) :
    Nat → GoType → Nat → List DVal → List GoVal →
    List DVal × Option BErr × List HookEv
  | 0, _, _, ds, _ => (ds, some .outOfFuel, [])
  | _ + 1, _, 0, ds, _ => (ds, none, [])
  | _ + 1, _, _ + 1, [], _ => ([], some .panicIndex, [])
  | _ + 1, _, _ + 1, d :: ds, [] => (d :: ds, some .panicIndex, [])
  | n + 1, et, cnt + 1, d :: ds, s :: ss =>
    let r := bind c n true et d s
    match r.err with
    | some e => (r.val :: ds, some e, r.evs)
    | none =>
      let rest := listLoop c n et cnt ds ss
      (r.val :: rest.1, rest.2.1, r.evs ++ rest.2.2)

/-- binder.bindMap (source lines 461-504): a non-map source is the "cannot
bind a map type" error; otherwise a fresh destination map is filled entry by
entry and written to the destination only after every entry bound (502),
so an error leaves the destination at its prior value. -/
def bindMap (c : Ctx) : Nat → GoType → GoType → DVal → GoVal → BR
  | 0, _, _, dst, _ => ⟨dst, some .outOfFuel, []⟩
  | n + 1, kt, vt, dst, src =>
    match src with
    | .vmap kvs =>
      let r := mapLoop c n kt vt kvs
      match r.2.1 with
      | some e => ⟨dst, some e, r.2.2⟩
      | none => ⟨.dMap (some r.1), none, r.2.2⟩
    | _ => ⟨dst, some .mapToNonMap, []⟩

/-- The entry loop of binder.bindMap (the three range loops of 467-499,
merged over the modelled string-keyed source). -/
def mapLoop (c : Ctx) :
    Nat → GoType → GoType → List (String × GoVal) →
    List (DVal × DVal) × Option BErr × List HookEv
  | 0, _, _, _ => ([], some .outOfFuel, [])
  | _ + 1, _, _, [] => ([], none, [])
  | n + 1, kt, vt, (k, v) :: kvs =>
    match _bindMapIndex c n kt vt k v with
    | (some p, _, evs) =>
      let rest := mapLoop c n kt vt kvs
      (p :: rest.1, rest.2.1, evs ++ rest.2.2)
    | (none, e, evs) => ([], e, evs)

/-- binder._bindMapIndex (source lines 506-521): bind the key into a fresh
zero key-typed slot and the value into a fresh zero value-typed slot, each
through the full engine, and return the pair for insertion; the first error
aborts the entry. -/
def _bindMapIndex (c : Ctx) :
    Nat → GoType → GoType → String → GoVal →
    Option (DVal × DVal) × Option BErr × List HookEv
  | 0, _, _, _, _ => (none, some .outOfFuel, [])
  | n + 1, kt, vt, key, v =>
    let rk := bind c n true kt (zero kt) (.vstr key)
    match rk.err with
    | some e => (none, some e, rk.evs)
    | none =>
      let rv := bind c n true vt (zero vt) v
      match rv.err with
      | some e => (none, some e, rk.evs ++ rv.evs)
      | none => (some (rk.val, rv.val), none, rk.evs ++ rv.evs)
end

/-- The Binder configuration struct (source lines 60-97): the two policy
flags, the optional field-name getter and the optional hook. -/
structure Binder where
  ConvertSliceToSingle : Bool
  ConvertSingleToSlice : Bool
  GetFieldName : Option (FieldMeta → String × String)
  Hook : Option HookFn

/-- getStructFieldNameWithTag (source lines 156-166), over the pre-parsed
output of the external field.GetTag collaborator carried in `FieldMeta`: an
empty tag name falls back to the Go field name, the name "-" means ignore.
The model carries one parsed tag per field, so the tag key is unused
here. -/
def getStructFieldNameWithTag (f : FieldMeta) (_tag : String) : String × String :=
  (match f.tagName with
   | "" => f.fname
   | "-" => ""
   | n => n,
   f.tagArg)

/-- getStructFieldName (source lines 152-154). -/
def getStructFieldName (f : FieldMeta) : String × String :=
  getStructFieldNameWithTag f "json"

/-- NewBinderWithHook (source lines 102-109). -/
def NewBinderWithHook (hook : Option HookFn) : Binder :=
  { ConvertSliceToSingle := true, ConvertSingleToSlice := true,
    GetFieldName := none, Hook := hook }

/-- NewBinder (source lines 99-100). -/
def NewBinder : Binder := NewBinderWithHook none

/-- DefaultBinder (source lines 29-30). -/
def DefaultBinder : Binder := NewBinder

/-- Binder.fieldNameGetter (source lines 145-150). -/
def Binder.fieldNameGetter (b : Binder) : FieldMeta → String × String :=
  match b.GetFieldName with
  | some g => g
  | none => getStructFieldName

/-- The internal binder struct (source lines 168-171): the resolved
field-name getter plus the embedded Binder. -/
structure binder where
  getFieldName : FieldMeta → String × String
  toBinder : Binder

/-- The engine context read off a binder value: of the embedded Binder the
recursive engine reads exactly ConvertSliceToSingle (line 215) and Hook
(lines 208-213), together with the resolved field-name getter (line 547);
no line of the package reads ConvertSingleToSlice.  The environment of user
types stands in for Go's ambient method sets. -/
def binder.toCtx (env : Env) (c : binder) : Ctx :=
  ⟨env, c.toBinder.ConvertSliceToSingle, c.getFieldName, c.toBinder.Hook⟩

/-- binder.Bind (source lines 173-190): a settable destination binds
directly; a non-settable pointer-kind destination binds through its element
when that is settable (a non-nil pointer), and errors otherwise; every
other destination is the "must be canset or a pointer" error.  The flag
`canSet = true` models passing a settable reflect.Value; `canSet = false`
models every other argument (reflect.ValueOf of a plain Go value is never
settable). -/
def binder.Bind (env : Env) (c : binder) (fuel : Nat) (canSet : Bool)
    (t : GoType) (v : DVal) (src : GoVal) : BR :=
  if canSet then bind (c.toCtx env) fuel true t v src
  else
    match t.kind, v with
    | .kPtr, .dPtr (some pv) =>
      let r := bind (c.toCtx env) fuel true (ptrElem t) pv src
      ⟨.dPtr (some r.val), r.err, r.evs⟩
    | .kPtr, .dPtr none => ⟨v, some .notSettablePointee, []⟩
    | _, _ => ⟨v, some .notCanSetOrPtr, []⟩

/-- Binder.Bind (source lines 141-143): resolve the field-name getter and
run the internal binder. -/
def Binder.Bind (env : Env) (b : Binder) (fuel : Nat) (canSet : Bool)
    (t : GoType) (v : DVal) (src : GoVal) : BR :=
  binder.Bind env ⟨b.fieldNameGetter, b⟩ fuel canSet t v src

/-- The package-level Bind (source lines 42-45), using DefaultBinder. -/
def Bind (env : Env) (fuel : Nat) (canSet : Bool) (t : GoType) (v : DVal)
    (src : GoVal) : BR :=
  Binder.Bind env DefaultBinder fuel canSet t v src

/-- The inert environment: no user type implements either capability and no
non-empty interface is implemented by anything.  Used for concrete
instances that involve no user types. -/
def env0 : Env :=
  { hasU := fun _ => false, hasS := fun _ => false,
    unm := fun _ d _ => (d, none), set := fun _ d _ => (d, none),
    impl := fun _ _ => false }

/-- The context of the default binder over `env0` (ConvertSliceToSingle on,
default json-tag field-name getter, no hook). -/
def ctx0 : Ctx := ⟨env0, true, getStructFieldName, none⟩

/-- A hook that always reports an error, used to make hook invocations
observable through the result as well as through the event log. -/
def hookErr : HookFn := fun _ _ _ => (none, some (.user 1))

/-- The default-binder context carrying `hookErr`. -/
def ctxHook : Ctx := ⟨env0, true, getStructFieldName, some hookErr⟩

/-- An environment with one user type (method-set id 1) implementing both
capabilities, whose UnmarshalBind writes 42 and whose Set would error. -/
def envU : Env :=
  { hasU := fun i => i == 1, hasS := fun i => i == 1,
    unm := fun _ _ _ => (.dInt 42, none),
    set := fun _ _ _ => (.dInt 0, some (.user 9)),
    impl := fun _ _ => false }

/-- The default-binder context over `envU`. -/
def ctxU : Ctx := ⟨envU, true, getStructFieldName, none⟩

/-- A non-sequence source passes `collapseSrc` through unchanged, whatever
the policy and destination kind. -/
theorem collapseSrc_nonlist (b : Bool) (k : Kind) (x : GoVal)
    (h : ∀ es, x ≠ .vlist es) : collapseSrc b k x = some x := by
  cases x <;> first
    | exact absurd rfl (h _)
    | simp [collapseSrc]

/-- Claim C1.  The claim states that a fixed-size array destination with
non-zero declared length receives exactly min(declared length, source
length) elements in place with no error: a longer source is truncated
silently and a shorter source leaves the trailing destination elements at
their prior values.  The code instead raises the loop bound to the MAXIMUM
of the two lengths (source line 442: `if _len < dstlen { _len = dstlen }`)
and then indexes both the destination storage and the source up to that
bound, so either length mismatch runs one index space off its end and
panics with index out of range, after writing the first min(...) elements.
This theorem evaluates the embedded `_bindList` at the claim's own two
example shapes: a 5-element source into a 3-element int array (panics
indexing destination element 3 after writing elements 0-2) and a 1-element
source into a 3-element int array (panics indexing source element 1 after
writing element 0). -/
theorem C1_array_length_mismatch_panics :
    _bindList ctx0 12 true .tInt (.dArr [.dInt 7, .dInt 8, .dInt 9])
        (.vlist [.vint 1, .vint 2, .vint 3, .vint 4, .vint 5]) =
      ⟨.dArr [.dInt 1, .dInt 2, .dInt 3], some .panicIndex, []⟩ ∧
    _bindList ctx0 12 true .tInt (.dArr [.dInt 7, .dInt 8, .dInt 9])
        (.vlist [.vint 1]) =
      ⟨.dArr [.dInt 1, .dInt 8, .dInt 9], some .panicIndex, []⟩ :=
  ⟨rfl, rfl⟩

/-- Claim C3.  The claim states that an interface slot holding a concrete
value that is not independently addressable is bound copy-on-write: the
engine takes a writable copy of the held value, binds the source into the
copy, and on success replaces the slot's contents, so the held value is
still updated.  The code never binds into the copy: line 367 passes `elem`
(the non-addressable original) to the recursive bind, and line 372 writes
`elem.Elem()` back.  First conjunct: an interface slot (id 5, not
implemented by the source's type) holding the non-addressable value Int(5)
of a named int type is left completely unchanged, with no error, by binding
source 7 — the recursion into the non-addressable original is a no-op and
no copy is ever made for a non-pointer payload (the `else` arm setting
`copied` exists only under `elem.Kind() == reflect.Pointer`).  Second
conjunct: for a held nil pointer (the one payload for which `copied`
becomes true) the bind into the original is again a no-op and the final
`dstValue.Set(elem.Elem())` is a reflect panic, because `elem.Elem()` of a
nil pointer is the invalid zero Value. -/
theorem C3_interface_copy_on_write_broken :
    bind ctx0 8 true (.tIface 5)
        (.dIface (some (.tNamed 1 .tInt, .dInt 5))) (.vint 7) =
      ⟨.dIface (some (.tNamed 1 .tInt, .dInt 5)), none, []⟩ ∧
    bind ctx0 8 true (.tIface 5)
        (.dIface (some (.tPtr .tInt, .dPtr none))) (.vint 7) =
      ⟨.dIface (some (.tPtr .tInt, .dPtr none)), some .panicSet, []⟩ :=
  ⟨rfl, rfl⟩

/-- Claim C7.  Binding through a pointer destination: the equation shows
that `bindPointer` recurses into the pointee with the same source value,
that the single allocation of the node is the zero pointee taken exactly
when the pointer is nil (`Option.getD` of the nil pointer is `zero u`, an
existing pointee is reused unchanged), and that the resulting destination
is always a non-nil pointer — in particular on success. -/
theorem C7_pointer_allocation :
    ∀ (c : Ctx) (n : Nat) (u : GoType) (p : Option DVal) (src : GoVal),
      (bindPointer c (n + 1) u p src =
        ⟨.dPtr (some (bind c n true u (p.getD (zero u)) src).val),
         (bind c n true u (p.getD (zero u)) src).err,
         (bind c n true u (p.getD (zero u)) src).evs⟩) ∧
      (bindPointer c (n + 1) u none src =
        ⟨.dPtr (some (bind c n true u (zero u) src).val),
         (bind c n true u (zero u) src).err,
         (bind c n true u (zero u) src).evs⟩) ∧
      ∃ pv, (bindPointer c (n + 1) u p src).val = .dPtr (some pv) := by
  intro c n u p src
  exact ⟨rfl, rfl, ⟨(bind c n true u (p.getD (zero u)) src).val, rfl⟩⟩

/-- Claim C9.  The ConvertSingleToSlice flag is never read by the engine:
two Binder configurations differing only in that flag produce identical
results (same value written, same error, same hook invocations) for every
environment, destination and source.  The remaining conjuncts instantiate
the particular consequence named by the claim: binding a non-sequence
source into a slice destination fails with the same
"cannot bind a slice type to a non-array/slice type" error whether the
flag is true or false. -/
theorem C9_ConvertSingleToSlice_no_effect :
    (∀ (env : Env) (b : Binder) (x y : Bool) (fuel : Nat) (canSet : Bool)
       (t : GoType) (v : DVal) (src : GoVal),
       Binder.Bind env { b with ConvertSingleToSlice := x } fuel canSet t v src =
       Binder.Bind env { b with ConvertSingleToSlice := y } fuel canSet t v src) ∧
    Binder.Bind env0 { NewBinder with ConvertSingleToSlice := true } 8 true
        (.tSlice .tInt) (.dSlice none) (.vint 3) =
      ⟨.dSlice none, some .listToNonList, []⟩ ∧
    Binder.Bind env0 { NewBinder with ConvertSingleToSlice := false } 8 true
        (.tSlice .tInt) (.dSlice none) (.vint 3) =
      ⟨.dSlice none, some .listToNonList, []⟩ := by
  refine ⟨fun env b x y fuel canSet t v src => rfl, rfl, rfl⟩

/-- Claim C2, counterexample.  The claim states that a configured Hook runs
once at every node before any other step, for every destination and source
— including a null source and a non-writable destination.  With `hookErr`
configured (a hook that always errors, so an invocation is observable both
in the event log and in the result): binding a null source returns success
with an empty invocation log and no hook error, and binding into a
non-settable non-pointer destination does the same — in both cases the
engine returns before the hook, refuting the claim. -/
theorem C2_hook_skipped_counterexample :
    bind ctxHook 5 true .tInt (.dInt 0) .vnull = ⟨.dInt 0, none, []⟩ ∧
    bind ctxHook 5 false .tInt (.dInt 0) (.vint 3) = ⟨.dInt 0, none, []⟩ :=
  ⟨rfl, rfl⟩

/-- Claim C2, amended: when a Hook is configured it is invoked exactly once
per node, on that node's destination and current source, before every other
step of the node (collapse, escape hatches, assignment, dispatch, which all
live in `bindAfterHook` and contribute their hook events strictly after this
one) — but only after the null-source check and the writability guard: the
equation below holds whenever the source is non-null and the guard passes,
and the engine propagates a hook error, stops on a nil replacement source,
and otherwise continues with the replaced source. -/
theorem C2_hook_once_after_guards :
    ∀ (c : Ctx) (h : HookFn) (n : Nat) (canSet : Bool) (t : GoType)
      (dst : DVal) (src : GoVal),
      c.hook = some h → src ≠ .vnull → canRoute canSet t.kind dst = true →
      bind c (n + 1) canSet t dst src =
        match h t dst src with
        | (_, some e) => ⟨dst, some e, [(t, dst, src)]⟩
        | (none, none) => ⟨dst, none, [(t, dst, src)]⟩
        | (some s, none) =>
          ⟨(bindAfterHook c n canSet t dst s).val,
           (bindAfterHook c n canSet t dst s).err,
           (t, dst, src) :: (bindAfterHook c n canSet t dst s).evs⟩ := by
  intro c h n canSet t dst src hh hs hr
  cases src <;> simp_all [bind]

/-- Claim C2, witness: the amended equation applied at a concrete node: the
configured `hookErr` is invoked exactly once on the node's destination and
source, its error is propagated and nothing else runs. -/
theorem C2_hook_once_witness :
    bind ctxHook 4 true .tInt (.dInt 0) (.vint 3) =
      ⟨.dInt 0, some (.user 1), [(.tInt, .dInt 0, .vint 3)]⟩ := by
  have h := C2_hook_once_after_guards ctxHook hookErr 3 true .tInt (.dInt 0)
    (.vint 3) rfl (by simp) rfl
  simpa [hookErr] using h

/-- Claim C4, counterexample.  The claim states that `Bind(dst, null)`
never errors and never mutates dst, for every destination value.  The
destination check of binder.Bind runs before the null-source check of
binder.bind, so a destination that is neither a settable reflect.Value nor
a pointer — here a plain int value — yields the "must be canset or a
pointer" error even for a null source. -/
theorem C4_unwritable_destination_counterexample :
    binder.Bind env0 ⟨getStructFieldName, NewBinder⟩ 5 false .tInt (.dInt 5) .vnull =
      ⟨.dInt 5, some .notCanSetOrPtr, []⟩ :=
  rfl

/-- Claim C4, amended: for every destination that binder.Bind accepts — a
settable value, or a non-nil pointer (whose element is the settable target)
— a null source returns no error and leaves the destination completely
unmutated; destinations binder.Bind rejects error regardless of the
source. -/
theorem C4_null_source_noop :
    ∀ (env : Env) (c : binder) (n : Nat),
      (∀ (t : GoType) (v : DVal),
        binder.Bind env c (n + 1) true t v .vnull = ⟨v, none, []⟩) ∧
      (∀ (t : GoType) (pv : DVal), t.kind = .kPtr →
        binder.Bind env c (n + 1) false t (.dPtr (some pv)) .vnull =
          ⟨.dPtr (some pv), none, []⟩) := by
  intro env c n
  constructor
  · intro t v
    simp [binder.Bind, bind]
  · intro t pv hk
    simp [binder.Bind, hk, bind]

/-- Claim C4, witness: the amended no-op applied at a settable int
destination and at a non-nil pointer destination. -/
theorem C4_null_source_noop_witness :
    binder.Bind env0 ⟨getStructFieldName, NewBinder⟩ 5 true .tInt (.dInt 3) .vnull =
      ⟨.dInt 3, none, []⟩ ∧
    binder.Bind env0 ⟨getStructFieldName, NewBinder⟩ 5 false (.tPtr .tInt)
        (.dPtr (some (.dInt 3))) .vnull =
      ⟨.dPtr (some (.dInt 3)), none, []⟩ :=
  ⟨(C4_null_source_noop env0 ⟨getStructFieldName, NewBinder⟩ 4).1 .tInt (.dInt 3),
   (C4_null_source_noop env0 ⟨getStructFieldName, NewBinder⟩ 4).2 (.tPtr .tInt) (.dInt 3) rfl⟩

/-- Claim C5.  For a destination whose address implements both the
Unmarshaler and the Setter capability, every source value reaching the
escape-hatch check (the hypothesis fixes the outcome `s` of the collapse
step immediately preceding it) is delegated to UnmarshalBind, whose result
is returned with no further built-in dispatch; the right-hand side never
consults the Setter implementation, so Set is never used. -/
theorem C5_unmarshaler_precedence :
    ∀ (c : Ctx) (n : Nat) (canSet : Bool) (t : GoType) (dst : DVal)
      (src s : GoVal) (id : Nat),
      escTarget t = some id → c.env.hasU id = true → c.env.hasS id = true →
      collapseSrc c.cs2s t.kind src = some s →
      bindAfterHook c (n + 1) canSet t dst src =
        ⟨(c.env.unm id dst s).1, (c.env.unm id dst s).2, []⟩ := by
  intro c n canSet t dst src s id hesc hU hS hcol
  simp [bindAfterHook, hcol, escapeStep, hesc, hU]

/-- Claim C5, witness: the named int type with method-set id 1 implements
both capabilities in `envU`; binding source 7 delegates to UnmarshalBind
(writing 42) and not to Set (which would have errored with user error 9). -/
theorem C5_unmarshaler_precedence_witness :
    bindAfterHook ctxU 3 true (.tNamed 1 .tInt) (.dInt 0) (.vint 7) =
      ⟨.dInt 42, none, []⟩ := by
  have h := C5_unmarshaler_precedence ctxU 2 true (.tNamed 1 .tInt) (.dInt 0)
    (.vint 7) (.vint 7) 1 rfl rfl rfl rfl
  simpa [envU, ctxU] using h

/-- Claim C6.  With ConvertSliceToSingle enabled and a destination that is
neither array- nor slice-shaped: an empty sequence source returns with no
error, no write to the destination and no further action, and a non-empty
sequence source continues the node exactly as if the source were the
sequence's first element (stated for a non-sequence first element, the case
in which "in place of the sequence" is observable as an equation). -/
theorem C6_collapse_to_scalar :
    ∀ (c : Ctx) (n : Nat) (canSet : Bool) (t : GoType) (dst : DVal)
      (x : GoVal) (xs : List GoVal),
      c.cs2s = true → t.kind ≠ .kArr → t.kind ≠ .kSlice →
      (bindAfterHook c (n + 1) canSet t dst (.vlist []) = ⟨dst, none, []⟩) ∧
      ((∀ es, x ≠ .vlist es) →
        bindAfterHook c (n + 1) canSet t dst (.vlist (x :: xs)) =
          bindAfterHook c (n + 1) canSet t dst x) := by
  intro c n canSet t dst x xs hcs h1 h2
  constructor
  · simp [bindAfterHook, collapseSrc, hcs, h1, h2]
  · intro hx
    have e1 : collapseSrc c.cs2s t.kind (.vlist (x :: xs)) = some x := by
      simp [collapseSrc, hcs, h1, h2]
    have e2 : collapseSrc c.cs2s t.kind x = some x :=
      collapseSrc_nonlist c.cs2s t.kind x hx
    simp only [bindAfterHook]
    rw [e1, e2]

/-- Claim C6, witness: under the default configuration, binding the empty
sequence into an int destination holding 5 leaves it at 5 with no error,
and binding the one-element sequence [7] continues with the scalar 7 —
which then coerces into the destination, yielding 7. -/
theorem C6_collapse_witness :
    bindAfterHook ctx0 3 true .tInt (.dInt 5) (.vlist []) = ⟨.dInt 5, none, []⟩ ∧
    bindAfterHook ctx0 3 true .tInt (.dInt 5) (.vlist [.vint 7]) =
      bindAfterHook ctx0 3 true .tInt (.dInt 5) (.vint 7) ∧
    bindAfterHook ctx0 3 true .tInt (.dInt 5) (.vint 7) = ⟨.dInt 7, none, []⟩ := by
  have h := C6_collapse_to_scalar ctx0 2 true .tInt (.dInt 5) (.vint 7) []
    rfl (by decide) (by decide)
  exact ⟨h.1, h.2 (fun es hcon => GoVal.noConfusion hcon), rfl⟩

/-- Claim C8.  First conjunct, the general flattening rule: a settable
record member whose field resolver yields a non-empty name with the
"squash" argument — or which is an anonymous member — of record shape is
bound by recursing the record binder directly into the member with the
SAME source value as the parent record.  Second conjunct, the claim's flat
example: a record with ordinary member A and a squash-tagged embedded
record of members X, Y binds from the single flat source map
A=1, X=2, Y=3 with no key nesting, populating all three. -/
theorem C8_squash_flattening :
    (∀ (c : Ctx) (n : Nat) (f : FieldMeta) (ft : GoType) (v : DVal)
       (src : GoVal) (name arg : String),
       f.exported = true → c.gfn f = (name, arg) → name ≠ "" →
       ft.kind = .kStruct → (arg = "squash" ∨ f.anon = true) →
       bindField c (n + 1) f ft v src = bindStruct c n ft v src) ∧
    bindStruct ctx0 12
      (.tStruct [(⟨"A", "", "", false, true⟩, .tInt),
                 (⟨"S", "", "squash", false, true⟩,
                  .tStruct [(⟨"X", "", "", false, true⟩, .tInt),
                            (⟨"Y", "", "", false, true⟩, .tInt)])])
      (.dStruct [.dInt 0, .dStruct [.dInt 0, .dInt 0]])
      (.vmap [("A", .vint 1), ("X", .vint 2), ("Y", .vint 3)]) =
    ⟨.dStruct [.dInt 1, .dStruct [.dInt 2, .dInt 3]], none, []⟩ := by
  constructor
  · intro c n f ft v src name arg hexp hg hname hk hsq
    simp only [bindField, hexp, hg, if_true]
    rw [if_neg hname, if_pos ⟨hk, hsq.symm⟩]
  · rfl

/-- Claim C8, witness: the general rule applied to the squash member of the
example record — its fields bind against the parent's source map itself. -/
theorem C8_squash_witness :
    bindField ctx0 6 ⟨"S", "", "squash", false, true⟩
        (.tStruct [(⟨"X", "", "", false, true⟩, .tInt),
                   (⟨"Y", "", "", false, true⟩, .tInt)])
        (.dStruct [.dInt 0, .dInt 0])
        (.vmap [("A", .vint 1), ("X", .vint 2), ("Y", .vint 3)]) =
      bindStruct ctx0 5
        (.tStruct [(⟨"X", "", "", false, true⟩, .tInt),
                   (⟨"Y", "", "", false, true⟩, .tInt)])
        (.dStruct [.dInt 0, .dInt 0])
        (.vmap [("A", .vint 1), ("X", .vint 2), ("Y", .vint 3)]) :=
  C8_squash_flattening.1 ctx0 5 ⟨"S", "", "squash", false, true⟩ _ _ _
    "S" "squash" rfl rfl (by decide) rfl (Or.inl rfl)

/-- Claim C10.  Binding into a growable-sequence (slice) destination or an
associative-map destination is atomic: whenever `_bindList` in slice mode
or `bindMap` returns an error — a non-sequence/non-map source, an element,
key or value failure, or fuel exhaustion — the destination value is
returned exactly as it was, because the freshly built container is written
to the destination only after the whole loop has succeeded. -/
theorem C10_slice_map_atomic_on_error :
    ∀ (c : Ctx) (n : Nat) (et kt vt : GoType) (dst : DVal) (src : GoVal),
      ((_bindList c (n + 1) false et dst src).err.isSome = true →
        (_bindList c (n + 1) false et dst src).val = dst) ∧
      ((bindMap c (n + 1) kt vt dst src).err.isSome = true →
        (bindMap c (n + 1) kt vt dst src).val = dst) := by
  intro c n et kt vt dst src
  constructor
  · intro herr
    cases src <;>
      (simp only [_bindList, Bool.false_eq_true, if_false] at herr ⊢; try rfl)
    rename_i vs
    rcases hL : listLoop c n et vs.length (List.replicate vs.length (zero et)) vs
      with ⟨es, e, evs⟩
    rw [hL] at herr
    cases e
    · simp at herr
    · rfl
  · intro herr
    cases src <;> (simp only [bindMap] at herr ⊢; try rfl)
    rename_i kvs
    rcases hL : mapLoop c n kt vt kvs with ⟨ps, e, evs⟩
    rw [hL] at herr
    cases e
    · simp at herr
    · rfl

/-- Claim C10, witness: a slice bind whose element fails to coerce and a
map bind whose value fails to coerce both error and leave the destination
at its prior (non-empty) value. -/
theorem C10_atomic_witness :
    (_bindList ctx0 8 false .tInt (.dSlice (some [.dInt 1])) (.vlist [.vmap []])).err.isSome = true ∧
    (_bindList ctx0 8 false .tInt (.dSlice (some [.dInt 1])) (.vlist [.vmap []])).val =
      .dSlice (some [.dInt 1]) ∧
    (bindMap ctx0 8 .tStr .tInt (.dMap (some [(.dStr "k", .dInt 9)]))
        (.vmap [("a", .vmap [])])).err.isSome = true ∧
    (bindMap ctx0 8 .tStr .tInt (.dMap (some [(.dStr "k", .dInt 9)]))
        (.vmap [("a", .vmap [])])).val = .dMap (some [(.dStr "k", .dInt 9)]) :=
  ⟨rfl,
   (C10_slice_map_atomic_on_error ctx0 7 .tInt .tStr .tInt
     (.dSlice (some [.dInt 1])) (.vlist [.vmap []])).1 rfl,
   rfl,
   (C10_slice_map_atomic_on_error ctx0 7 .tInt .tStr .tInt
     (.dMap (some [(.dStr "k", .dInt 9)])) (.vmap [("a", .vmap [])])).2 rfl⟩

end GoBinder
